import Mathlib

/-!
Verification development for the ProcureAI backend: a shallow embedding of
the email-to-proposal pipeline (AIService, EmailService correlation,
EmailPollingService / proposalController inbound processing, comparison
validation) together with theorems about its behaviour.
-/

deriving instance DecidableEq for Except

namespace ProcureAI

/-! JavaScript-style helpers: string truthiness and substring tests. -/

/-- Truthiness of an optional string field: `null`/`undefined` and the empty
string are falsy, every other string is truthy. -/
def jsTruthyStr : Option String → Bool
  | none => false
  | some s => !s.isEmpty

/-- Whether `pat` is a prefix of the character list `s`. -/
def charsHavePrefix : List Char → List Char → Bool
  | _, [] => true
  | [], _ :: _ => false
  | c :: cs, p :: ps => c == p && charsHavePrefix cs ps

/-- Whether `pat` occurs as a contiguous run inside `s`. -/
def charsContain : List Char → List Char → Bool
  | [], pat => pat.isEmpty
  | c :: rest, pat => charsHavePrefix (c :: rest) pat || charsContain rest pat

/-- `s.includes pat` in JavaScript: `pat` occurs somewhere in `s`. -/
def strIncludes (s pat : String) : Bool := charsContain s.data pat.data

/-- `s.toLowerCase()` (character-wise lowering, which agrees with JavaScript
on the ASCII addresses this system handles). -/
def strToLower (s : String) : String := (s.data.map Char.toLower).asString

/-- `o || d` for an optional string with a string default. -/
def jsStrOr (o : Option String) (d : String) : String :=
  match o with
  | some s => if s.isEmpty then d else s
  | none => d

/-! AIService error handling (src/backend/services/AIService.js). -/

/-- The shape of an upstream (OpenAI client) error as inspected by
`AIService`: optional HTTP status, optional error code, optional message. -/
structure JsError where
  status : Option Nat
  code : Option String
  msg : Option String
deriving DecidableEq

/-- `error.status >= 500 && error.status < 600` under JS semantics: false
when `status` is absent. -/
def statusIs5xx : Option Nat → Bool
  | some s => decide (500 ≤ s) && decide (s < 600)
  | none => false

/-- `error.message && error.message.includes("timeout")`. -/
def msgIncludesTimeout : Option String → Bool
  | some m => !m.isEmpty && strIncludes m "timeout"
  | none => false

/-- `AIService.isRetryableError`: HTTP 429, any 5xx, `ECONNRESET`/`ETIMEDOUT`
codes, or a message containing "timeout". -/
def isRetryableError (e : JsError) : Bool :=
  (e.status == some 429) ||
  statusIs5xx e.status ||
  (e.code == some "ECONNRESET") ||
  (e.code == some "ETIMEDOUT") ||
  msgIncludesTimeout e.msg

/-- `error.message || "Unknown error occurred"`. -/
def jsMsgOrUnknown : Option String → String
  | some m => if m.isEmpty then "Unknown error occurred" else m
  | none => "Unknown error occurred"

/-- `AIService.handleError`: maps an upstream error to the message of the
`Error` raised across the adapter boundary. -/
def handleError (e : JsError) : String :=
  if e.status == some 401 then
    "Invalid OpenAI API key"
  else if e.status == some 429 then
    "OpenAI API rate limit exceeded. Please try again later."
  else if e.status == some 500 || e.status == some 503 then
    "OpenAI service is temporarily unavailable. Please try again later."
  else if msgIncludesTimeout e.msg then
    "Request to OpenAI timed out. Please try again."
  else
    "AI service error: " ++ jsMsgOrUnknown e.msg

/-- Backoff delay before a retry: `baseDelay * 2 ^ (maxRetries - retries)`
with `baseDelay = 1000` and `maxRetries = 3`. -/
def backoffDelay (retries : Nat) : Nat := 1000 * 2 ^ (3 - retries)

/-- `AIService.retryWithBackoff`, with the upstream call modelled as a map
from attempt index to its outcome. Returns the list of backoff delays that
were waited (in order) and the final outcome: the successful value or the
message of the error produced by `handleError`. -/
def retryGo {α : Type} (fn : Nat → Except JsError α) :
    Nat → Nat → List Nat × Except String α
  | 0, idx =>
    match fn idx with
    | .ok a => ([], .ok a)
    | .error e => ([], .error (handleError e))
  | retries + 1, idx =>
    match fn idx with
    | .ok a => ([], .ok a)
    | .error e =>
      if isRetryableError e then
        let rest := retryGo fn retries (idx + 1)
        (backoffDelay (retries + 1) :: rest.1, rest.2)
      else
        ([], .error (handleError e))

/-- Entry point: `retryWithBackoff(fn)` starts with `retries = maxRetries = 3`
on the first attempt. -/
def retryWithBackoff {α : Type} (fn : Nat → Except JsError α) :
    List Nat × Except String α :=
  retryGo fn 3 0

/-- The sequence of backoff delays still available when `r` retries remain. -/
def delaySeq : Nat → List Nat
  | 0 => []
  | r + 1 => backoffDelay (r + 1) :: delaySeq r

/-! Inbound email data (EmailService.extractEmailData / webhook body). -/

/-- A normalized inbound email as handed to the correlation and processing
code: sender address (possibly absent, when extraction found none), subject,
plain-text body, attachment filenames (each possibly absent on the
attachment object), and an optional date. -/
structure EmailData where
  fromAddr : Option String
  subject : String
  body : String
  attachments : List (Option String)
  date : Option Nat
deriving DecidableEq

/-! AIService.parseProposal: oracle output schema validation. -/

/-- One element of the oracle's `line_items` array; each field is absent when
missing or not of the expected JSON type. -/
structure LineItemJson where
  item_name : Option String
  unit_price : Option Rat
  quantity : Option Rat
  total_price : Option Rat
deriving DecidableEq

/-- The JSON object returned by the extraction oracle for a proposal-parse
call, before schema validation. -/
structure ParseOutput where
  line_items : Option (List LineItemJson)
  total_price : Option Rat
  delivery_timeline : Option String
  payment_terms : Option String
  warranty_terms : Option String
  special_conditions : Option (List String)
  confidence : Option Rat
deriving DecidableEq

/-- Per-item check in `parseProposal`: `!item.item_name ||
typeof item.unit_price !== "number" || typeof item.quantity !== "number" ||
typeof item.total_price !== "number"` fails the item. -/
def lineItemValid (it : LineItemJson) : Bool :=
  jsTruthyStr it.item_name && it.unit_price.isSome &&
  it.quantity.isSome && it.total_price.isSome

/-- The validated, repaired proposal-parse result that `parseProposal`
returns on success. -/
structure ParsedData where
  line_items : List LineItemJson
  total_price : Rat
  delivery_timeline : Option String
  payment_terms : Option String
  warranty_terms : Option String
  special_conditions : List String
  confidence : Rat
  requires_review : Bool
deriving DecidableEq

/-- `const confidenceThreshold = 0.7`, given directly in lowest terms so that
it evaluates by kernel reduction. -/
def confidenceThreshold : Rat := Rat.mk' 7 10 (by decide) (by norm_num)

/-- The default recommendation confidence 0.8, in lowest terms. -/
def defaultRecConfidence : Rat := Rat.mk' 4 5 (by decide) (by norm_num)

/-- Schema validation of the oracle's parse output, in source order:
`line_items` present/non-empty, `total_price` a number, `confidence` a number
in [0,1], every line item complete; `special_conditions` is coerced to `[]`
when missing or not an array; finally `requires_review := confidence < 0.7`. -/
def validateParseOutput (o : ParseOutput) : Except String ParsedData :=
  match o.line_items with
  | none => .error "AI response missing required field: line_items"
  | some items =>
    if items.isEmpty then
      .error "AI response missing required field: line_items"
    else
      match o.total_price with
      | none => .error "AI response missing required field: total_price"
      | some tp =>
        match o.confidence with
        | none => .error "AI response has invalid confidence score"
        | some conf =>
          if conf < 0 ∨ conf > 1 then
            .error "AI response has invalid confidence score"
          else if items.all lineItemValid then
            .ok { line_items := items
                  total_price := tp
                  delivery_timeline := o.delivery_timeline
                  payment_terms := o.payment_terms
                  warranty_terms := o.warranty_terms
                  special_conditions := o.special_conditions.getD []
                  confidence := conf
                  requires_review := decide (conf < confidenceThreshold) }
          else
            .error "A line item is missing required fields"

/-- The value passed to `aiService.parseProposal`: the webhook controller
passes the email-data object, while the polling service passes the body
string itself. -/
inductive JsArg
  | strVal (s : String)
  | emailVal (e : EmailData)
deriving DecidableEq

/-- The guard `if (!emailData || !emailData.body) throw ...` at the top of
`parseProposal`: an object passes iff its `body` is a non-empty string; a
plain string never passes, since a string has no `body` property (and the
empty string is itself falsy). -/
def parseProposalArgOk : JsArg → Bool
  | .strVal _ => false
  | .emailVal e => !e.body.isEmpty

/-- `AIService.parseProposal`, with the external completion call abstracted:
`oracleReply = none` models an upstream communication failure or non-JSON
reply (both raise), `some o` a JSON object that is then schema-validated. -/
def parseProposal (arg : JsArg) (oracleReply : Option ParseOutput) :
    Except String ParsedData :=
  if !(parseProposalArgOk arg) then
    .error "Email body is required for proposal parsing"
  else
    match oracleReply with
    | none => .error "AI request failed"
    | some o => validateParseOutput o

/-! AIService.compareProposals: comparison output validation and repair. -/

/-- The per-entry `scores` object (an object is truthy whenever present). -/
structure ScoresJson where
  price : Option Rat
  delivery : Option Rat
  terms : Option Rat
  completeness : Option Rat
deriving DecidableEq

/-- One entry of the oracle's `proposal_analysis` array, before validation. -/
structure AnalysisEntry where
  vendor_id : Option String
  vendor_name : Option String
  strengths : Option (List String)
  weaknesses : Option (List String)
  scores : Option ScoresJson
  total_score : Option Rat
  red_flags : Option (List String)
deriving DecidableEq

/-- The oracle's `recommendation` object, before validation. -/
structure RecommendationJson where
  vendor_id : Option String
  vendor_name : Option String
  reasoning : Option String
  confidence : Option Rat
deriving DecidableEq

/-- The JSON object returned by the oracle for a comparison call. -/
structure ComparisonOutput where
  proposal_analysis : Option (List AnalysisEntry)
  recommendation : Option RecommendationJson
  summary : Option String
deriving DecidableEq

/-- Per-entry hard check in `compareProposals`: `!analysis.vendor_id ||
!analysis.vendor_name || !analysis.scores` aborts the whole validation. -/
def entryValid (a : AnalysisEntry) : Bool :=
  jsTruthyStr a.vendor_id && jsTruthyStr a.vendor_name && a.scores.isSome

/-- An analysis entry after repair: the three list fields are coerced to `[]`
when missing or not arrays; the validated identity fields are kept. -/
structure RepairedEntry where
  vendor_id : String
  vendor_name : String
  strengths : List String
  weaknesses : List String
  scores : ScoresJson
  total_score : Option Rat
  red_flags : List String
deriving DecidableEq

/-- The in-place repair `compareProposals` applies to each entry that passed
the per-entry hard check. -/
def repairEntry (a : AnalysisEntry) : RepairedEntry :=
  { vendor_id := a.vendor_id.getD ""
    vendor_name := a.vendor_name.getD ""
    strengths := a.strengths.getD []
    weaknesses := a.weaknesses.getD []
    scores := (a.scores.getD { price := none, delivery := none, terms := none, completeness := none })
    total_score := a.total_score
    red_flags := a.red_flags.getD [] }

/-- The validated comparison result returned by `compareProposals`. -/
structure ComparisonData where
  proposal_analysis : List RepairedEntry
  recommendation_vendor_id : String
  recommendation_vendor_name : Option String
  recommendation_reasoning : Option String
  recommendation_confidence : Rat
  summary : String
deriving DecidableEq

/-- Validation of the oracle's comparison output, in source order: the
`proposal_analysis` array, the `recommendation` and its `vendor_id`, and the
`summary` are hard requirements; then every entry must carry `vendor_id`,
`vendor_name` and `scores` (hard), with its three list fields repaired to
`[]`; finally a missing or out-of-range recommendation confidence defaults
to 0.8. -/
def validateComparison (o : ComparisonOutput) : Except String ComparisonData :=
  match o.proposal_analysis with
  | none => .error "AI response missing required field: proposal_analysis"
  | some entries =>
    match o.recommendation with
    | none => .error "AI response missing required field: recommendation"
    | some rcm =>
      if !(jsTruthyStr rcm.vendor_id) then
        .error "AI response missing required field: recommendation"
      else if !(jsTruthyStr o.summary) then
        .error "AI response missing required field: summary"
      else if entries.all entryValid then
        .ok { proposal_analysis := entries.map repairEntry
              recommendation_vendor_id := rcm.vendor_id.getD ""
              recommendation_vendor_name := rcm.vendor_name
              recommendation_reasoning := rcm.reasoning
              recommendation_confidence :=
                match rcm.confidence with
                | some c => if c < 0 ∨ c > 1 then defaultRecConfidence else c
                | none => defaultRecConfidence
              summary := o.summary.getD "" }
      else
        .error "A proposal analysis entry is missing required fields"

/-! EmailService.correlateEmailToRFP: subject-tag extraction and the layered
correlation strategy. -/

/-- The character class `[a-f0-9]` under the regex's `i` flag. -/
def isJsHexDigit (c : Char) : Bool :=
  (decide ('a' ≤ c) && decide (c ≤ 'f')) ||
  (decide ('A' ≤ c) && decide (c ≤ 'F')) ||
  (decide ('0' ≤ c) && decide (c ≤ '9'))

/-- Try to match `\[RFP-([a-f0-9]+)\]` (case-insensitively) at the head of the
character list, returning the captured group. A maximal hex run followed by
anything other than `]` cannot match at this start, since every shorter run
is followed by a hex digit. -/
def tagCapture : List Char → Option (List Char)
  | '[' :: c1 :: c2 :: c3 :: '-' :: rest =>
    if c1.toLower = 'r' ∧ c2.toLower = 'f' ∧ c3.toLower = 'p' then
      match rest.takeWhile isJsHexDigit, rest.dropWhile isJsHexDigit with
      | h :: hs, ']' :: _ => some (h :: hs)
      | _, _ => none
    else none
  | _ => none

/-- Leftmost match of the tag pattern over the whole character list. -/
def findTagIn : List Char → Option (List Char)
  | [] => none
  | c :: rest =>
    match tagCapture (c :: rest) with
    | some h => some h
    | none => findTagIn rest

/-- `email.subject?.match(/\[RFP-([a-f0-9]+)\]/i)`: the captured RFP id from
the subject line, if the tag is present. -/
def extractRfpTag (subject : String) : Option String :=
  (findTagIn subject.data).map List.asString

/-- A vendor record (src/backend/models/Vendor.js); the schema stores `email`
lowercased. -/
structure Vendor where
  id : String
  name : String
  email : String
  specialization : Option String
deriving DecidableEq

/-- RFP lifecycle status (src/unnamed/part_003, `rfpSchema.status`). -/
inductive RfpStatus
  | draft | sent | receiving_proposals | closed
deriving DecidableEq

/-- One `(vendor_id, sent_at)` entry of an RFP's dispatch list. -/
structure VendorDispatch where
  vendor_id : String
  sent_at : Nat
deriving DecidableEq

/-- An RFP record, restricted to the fields the inbound pipeline reads. -/
structure RFP where
  id : String
  status : RfpStatus
  vendors : List VendorDispatch
deriving DecidableEq

/-- `Vendor.findOne({ email: email.toLowerCase() })` over the vendor table. -/
def findVendorByEmail (vendors : List Vendor) (addr : String) : Option Vendor :=
  vendors.find? (fun v => v.email == strToLower addr)

/-- The descending sort key `vendors.sent_at` MongoDB uses for a document
whose `vendors` field is an array: the maximal element. -/
def rfpDispatchKey (r : RFP) : Nat :=
  (r.vendors.map VendorDispatch.sent_at).foldr max 0

/-- The filter of the fallback query: dispatch list contains the vendor and
status is `sent` or `receiving_proposals`. -/
def rfpEligible (vendorId : String) (r : RFP) : Bool :=
  r.vendors.any (fun d => d.vendor_id == vendorId) &&
  (r.status == .sent || r.status == .receiving_proposals)

/-- One step of selecting the document with the greatest sort key: keep the
candidate with the larger dispatch key, preferring the earlier one on ties. -/
def pickNewer (acc : Option RFP) (r : RFP) : Option RFP :=
  match acc with
  | none => some r
  | some b => if rfpDispatchKey b < rfpDispatchKey r then some r else acc

/-- The `findRFPCallback` both controllers pass to the correlation engine:
`RFP.findOne({'vendors.vendor_id': vendorId, status: {$in: ['sent',
'receiving_proposals']}}).sort({'vendors.sent_at': -1})` — the eligible RFP
with the greatest dispatch key (first one on ties). -/
def findRecentRFP (rfps : List RFP) (vendorId : String) : Option RFP :=
  (rfps.filter (rfpEligible vendorId)).foldl pickNewer none

/-- The object `correlateEmailToRFP` returns: `{rfpId, vendorId, fromEmail,
success}` with `success = !!(rfpId && vendorId)`. -/
structure CorrelationResult where
  rfpId : Option String
  vendorId : Option String
  fromEmail : Option String
  success : Bool
deriving DecidableEq

/-- `EmailService.correlateEmailToRFP`: strategy 1 reads the subject tag;
strategy 2 matches the sender against the vendor table; the dispatch-history
fallback runs only inside the vendor-found branch and only when strategy 1
yielded nothing. -/
def correlateEmailToRFP (email : EmailData)
    (findRFPCallback : String → Option RFP)
    (findVendorCallback : String → Option Vendor) : CorrelationResult :=
  let tagId := extractRfpTag email.subject
  let vOpt :=
    match email.fromAddr with
    | none => none
    | some addr => findVendorCallback addr
  let vid := vOpt.map Vendor.id
  let rid :=
    match tagId with
    | some t => some t
    | none =>
      match vOpt with
      | some v => (findRFPCallback v.id).map RFP.id
      | none => none
  { rfpId := rid
    vendorId := vid
    fromEmail := email.fromAddr
    success := jsTruthyStr rid && jsTruthyStr vid }

/-! Proposal records, database state and the inbound entry points
(src/backend/models/Proposal.js, src/backend/controllers/proposalController.js,
src/unnamed/part_001 EmailPollingService). -/

/-- Proposal lifecycle status (`proposalSchema.status` enum). -/
inductive PropStatus
  | received | parsed | reviewed
deriving DecidableEq

/-- The `raw_email_content` sub-document stored verbatim at creation. -/
structure RawEmailContent where
  fromAddr : String
  subject : String
  body : String
  attachments : List String
deriving DecidableEq

/-- A proposal (response record): composite reference `(rfp_id, vendor_id)`,
raw content, nullable parse result and confidence, review flag (schema
default `false`), status (default `received`) and timestamps. -/
structure Proposal where
  id : String
  rfp_id : String
  vendor_id : String
  raw_email_content : RawEmailContent
  parsed_data : Option ParsedData
  parsing_confidence : Option Rat
  requires_review : Bool
  status : PropStatus
  received_at : Nat
  parsed_at : Option Nat
deriving DecidableEq

/-- The database state the inbound pipeline touches. -/
structure DB where
  proposals : List Proposal
  rfps : List RFP
  vendors : List Vendor
deriving DecidableEq

/-- `Proposal.findOne({ rfp_id, vendor_id })`. -/
def findProposalByPair (db : DB) (rid vid : String) : Option Proposal :=
  db.proposals.find? (fun p => p.rfp_id == rid && p.vendor_id == vid)

/-- Number of proposal records stored for a `(rfp_id, vendor_id)` pair. -/
def pairCount (db : DB) (rid vid : String) : Nat :=
  db.proposals.countP (fun p => p.rfp_id == rid && p.vendor_id == vid)

/-- Whether the schema declares the `(rfp_id, vendor_id)` index as unique:
`proposalSchema.index({ rfp_id: 1, vendor_id: 1 })` passes no `unique`
option, so it does not. -/
def proposalPairIndexUnique : Bool := false

/-- `new Proposal(...).save()` for a fresh record: with no unique pair index
the insert succeeds unconditionally; a unique index would make the save fail
(modelled as a no-op) when a record for the pair already exists. -/
def saveNewProposal (db : DB) (p : Proposal) : DB :=
  if proposalPairIndexUnique ∧ (findProposalByPair db p.rfp_id p.vendor_id).isSome then
    db
  else
    { db with proposals := db.proposals ++ [p] }

/-- `proposal.save()` after mutating an already-stored document: replaces the
stored record with the same `_id`. -/
def updateProposal (db : DB) (p : Proposal) : DB :=
  { db with proposals := db.proposals.map (fun q => if q.id == p.id then p else q) }

/-- `RFP.findByIdAndUpdate(rid, { status: 'receiving_proposals' })` as the
webhook controller runs it: unconditional on the current status. -/
def setRfpStatusUncond (db : DB) (rid : String) : DB :=
  { db with rfps := db.rfps.map (fun r =>
      if r.id == rid then { r with status := .receiving_proposals } else r) }

/-- The polling service's guarded update: `RFP.findById(rid)` and set
`receiving_proposals` only when the current status is `sent`. -/
def setRfpStatusIfSent (db : DB) (rid : String) : DB :=
  { db with rfps := db.rfps.map (fun r =>
      if r.id == rid && r.status == .sent then
        { r with status := .receiving_proposals }
      else r) }

/-- The `raw_email_content` value both entry points build from the email:
`attachments.map(att => att.filename || 'attachment')`. -/
def rawContentOf (email : EmailData) : RawEmailContent :=
  { fromAddr := email.fromAddr.getD ""
    subject := email.subject
    body := email.body
    attachments := email.attachments.map (fun f => jsStrOr f "attachment") }

/-- The freshly created proposal document, in `received` status with the
schema defaults for the remaining fields. -/
def newProposal (newId rid vid : String) (email : EmailData) (receivedAt : Nat) :
    Proposal :=
  { id := newId
    rfp_id := rid
    vendor_id := vid
    raw_email_content := rawContentOf email
    parsed_data := none
    parsing_confidence := none
    requires_review := false
    status := .received
    received_at := receivedAt
    parsed_at := none }

/-- The try/catch around the parse step shared by both entry points: on
success set the parsed fields, `requires_review = confidence < 0.7`,
status `parsed` and the parse timestamp; on failure keep the record as
created and force `requires_review = true`. -/
def applyParseResult (p0 : Proposal) (res : Except String ParsedData) (now : Nat) :
    Proposal :=
  match res with
  | .ok d =>
    { p0 with parsed_data := some d
              parsing_confidence := some d.confidence
              requires_review := decide (d.confidence < confidenceThreshold)
              status := .parsed
              parsed_at := some now }
  | .error _ => { p0 with requires_review := true }

/-- Correlation as both entry points invoke it, with the concrete database
callbacks. -/
def correlateInDb (db : DB) (email : EmailData) : CorrelationResult :=
  correlateEmailToRFP email (findRecentRFP db.rfps) (findVendorByEmail db.vendors)

/-- The structured result `EmailPollingService.processReceivedEmail` returns
(it never lets a per-message failure escape). -/
inductive PollOutcome
  | correlationFailed (c : CorrelationResult)
  | duplicateProposal (proposalId : String)
  | ok (proposalId rfpId vendorId : String)
deriving DecidableEq

/-- `EmailPollingService.processReceivedEmail`: correlate, bail out on
correlation failure or an existing record for the pair, otherwise create the
record, attempt the parse (passing the body string to `parseProposal`), and
advance the RFP to `receiving_proposals` only if it is still `sent`. -/
def processReceivedEmail (db : DB) (email : EmailData)
    (oracleReply : Option ParseOutput) (newId : String) (now : Nat) :
    DB × PollOutcome :=
  let c := correlateInDb db email
  if !(c.success && jsTruthyStr c.rfpId && jsTruthyStr c.vendorId) then
    (db, .correlationFailed c)
  else
    let rid := c.rfpId.getD ""
    let vid := c.vendorId.getD ""
    match findProposalByPair db rid vid with
    | some p => (db, .duplicateProposal p.id)
    | none =>
      let p0 := newProposal newId rid vid email (email.date.getD now)
      let db1 := saveNewProposal db p0
      let p1 := applyParseResult p0 (parseProposal (.strVal email.body) oracleReply) now
      let db2 := updateProposal db1 p1
      let db3 := setRfpStatusIfSent db2 rid
      (db3, .ok newId rid vid)

/-- The HTTP-level outcome of the webhook controller. -/
inductive HttpOutcome
  | validationError (msg : String)
  | duplicateError (proposalId : String)
  | created (proposalId : String)
deriving DecidableEq

/-- `receiveProposal` (POST /api/proposals/inbound): validate the body
fields, correlate, raise on correlation failure or an existing record,
otherwise create the record, attempt the parse (passing the email-data
object), and then run the unconditional
`RFP.findByIdAndUpdate(..., { status: 'receiving_proposals' })`. -/
def receiveProposal (db : DB) (email : EmailData)
    (oracleReply : Option ParseOutput) (newId : String) (now : Nat) :
    DB × HttpOutcome :=
  if !(jsTruthyStr email.fromAddr && !email.subject.isEmpty && !email.body.isEmpty) then
    (db, .validationError "Missing required fields: from, subject, body")
  else
    let c := correlateInDb db email
    if !(c.success && jsTruthyStr c.rfpId && jsTruthyStr c.vendorId) then
      (db, .validationError "Unable to correlate email to RFP and vendor")
    else
      let rid := c.rfpId.getD ""
      let vid := c.vendorId.getD ""
      match findProposalByPair db rid vid with
      | some p => (db, .duplicateError p.id)
      | none =>
        let p0 := newProposal newId rid vid email now
        let db1 := saveNewProposal db p0
        let p1 := applyParseResult p0 (parseProposal (.emailVal email) oracleReply) now
        let db2 := updateProposal db1 p1
        let db3 := setRfpStatusUncond db2 rid
        (db3, .created newId)

/-! getComparison (GET /api/rfps/:id/comparison). -/

/-- The renderable result of the comparison endpoint: not-found, the explicit
no-responses marker, the fallback listing all raw records with `analysis:
null`, or the analyzed result. -/
inductive ComparisonView
  | notFound
  | noProposals (summary : String)
  | fallback (records : List Proposal) (summary : String)
  | analyzed (records : List Proposal) (data : ComparisonData)
deriving DecidableEq

/-- `getComparison`: when zero records exist return the explicit marker; when
the oracle call or its validation errors, return all raw records with
`analysis: null`; otherwise return the validated comparison. `oracleReply =
none` models an upstream failure of the comparison call. -/
def getComparison (db : DB) (rid : String)
    (oracleReply : Option ComparisonOutput) : ComparisonView :=
  match db.rfps.find? (fun r => r.id == rid) with
  | none => .notFound
  | some _ =>
    let props := db.proposals.filter (fun p => p.rfp_id == rid)
    if props.isEmpty then
      .noProposals "No proposals have been received yet for this RFP."
    else
      match oracleReply with
      | none =>
        .fallback props "AI comparison is temporarily unavailable. Please review proposals manually."
      | some o =>
        match validateComparison o with
        | .error _ =>
          .fallback props "AI comparison is temporarily unavailable. Please review proposals manually."
        | .ok d => .analyzed props d

/-! The create-if-absent step under interleaved execution: each process runs
the existence check (`Proposal.findOne`) and the insert (`save`) as two
separate database operations. -/

/-- `Proposal.findOne({rfp_id, vendor_id})` returned nothing. -/
def duplicateCheckPasses (db : DB) (rid vid : String) : Bool :=
  (findProposalByPair db rid vid).isNone

/-- The schedule check-A, check-B, insert-A, insert-B over a shared database:
both existence checks read the state before either insert runs; each insert
is unconditional once its own check passed. -/
def checkThenInsertInterleaved (db : DB) (pA pB : Proposal) : DB :=
  let aPasses := duplicateCheckPasses db pA.rfp_id pA.vendor_id
  let bPasses := duplicateCheckPasses db pB.rfp_id pB.vendor_id
  let db1 := if aPasses then saveNewProposal db pA else db
  if bPasses then saveNewProposal db1 pB else db1

/-! Concrete data used by the theorems below: a vendor, a dispatched RFP
whose tag appears in the sample email's subject, and small database states. -/

/-- A vendor whose stored (lowercased) email matches the sample sender. -/
def sampleVendor : Vendor :=
  { id := "v1", name := "Vendor One", email := "v1@x.com", specialization := none }

/-- An RFP in `sent` status, dispatched to the sample vendor. -/
def sampleRfp : RFP :=
  { id := "abc12", status := .sent, vendors := [{ vendor_id := "v1", sent_at := 5 }] }

/-- An inbound email carrying the subject tag `[RFP-abc12]` from the sample
vendor's address in mixed case. -/
def sampleEmail : EmailData :=
  { fromAddr := some "V1@X.com"
    subject := "Re: Request for Proposal - Office [RFP-abc12]"
    body := "Offer: 10 units at 100"
    attachments := []
    date := none }

/-- Database with the sample RFP and vendor and no proposals yet. -/
def sampleDb : DB := { proposals := [], rfps := [sampleRfp], vendors := [sampleVendor] }

/-- A proposal already stored for the pair `(abc12, v1)`. -/
def sampleStoredProposal : Proposal :=
  { id := "p0"
    rfp_id := "abc12"
    vendor_id := "v1"
    raw_email_content :=
      { fromAddr := "V1@X.com", subject := "s", body := "b", attachments := [] }
    parsed_data := none
    parsing_confidence := none
    requires_review := false
    status := .received
    received_at := 1
    parsed_at := none }

/-- The sample database with an existing record for `(abc12, v1)`. -/
def sampleDbWithProposal : DB := { sampleDb with proposals := [sampleStoredProposal] }

/-- The sample RFP already advanced to `closed`. -/
def closedRfp : RFP :=
  { id := "abc12", status := .closed, vendors := [{ vendor_id := "v1", sent_at := 5 }] }

/-- Database whose only RFP is closed, with no proposals. -/
def closedDb : DB := { proposals := [], rfps := [closedRfp], vendors := [sampleVendor] }

/-- A complete, well-typed oracle line item. -/
def boundaryItem : LineItemJson :=
  { item_name := some "chairs", unit_price := some 100, quantity := some 2,
    total_price := some 200 }

/-- An oracle parse output whose confidence is exactly the 0.7 threshold. -/
def boundaryParseOutput : ParseOutput :=
  { line_items := some [boundaryItem]
    total_price := some 200
    delivery_timeline := none
    payment_terms := none
    warranty_terms := none
    special_conditions := none
    confidence := some confidenceThreshold }

/-- The validated result of `boundaryParseOutput`. -/
def boundaryParsedData : ParsedData :=
  { line_items := [boundaryItem]
    total_price := 200
    delivery_timeline := none
    payment_terms := none
    warranty_terms := none
    special_conditions := []
    confidence := confidenceThreshold
    requires_review := false }

/-- An upstream HTTP 401 error (non-retryable). -/
def err401 : JsError := { status := some 401, code := none, msg := some "Unauthorized" }

/-- An upstream call that always fails with HTTP 401. -/
def fn401 : Nat → Except JsError Nat := fun _ => .error err401

/-- An upstream HTTP 429 error (retryable). -/
def err429 : JsError := { status := some 429, code := none, msg := some "Too Many Requests" }

/-- An upstream call that fails with 429 on the first two attempts and then
succeeds. -/
def fn429Twice : Nat → Except JsError Nat := fun i => if i < 2 then .error err429 else .ok 7

/-- An upstream error with a distinctive message and no mapped status. -/
def errBoom : JsError := { status := none, code := none, msg := some "boom" }

/-- The same shape of upstream error with a different message. -/
def errZap : JsError := { status := none, code := none, msg := some "zap zap" }

/-- An analysis entry missing its `vendor_name` (but carrying `vendor_id` and
`scores`). -/
def badNameEntry : AnalysisEntry :=
  { vendor_id := some "v1"
    vendor_name := none
    strengths := none
    weaknesses := none
    scores := some { price := some 5, delivery := some 5, terms := some 5, completeness := some 5 }
    total_score := some 5
    red_flags := none }

/-- A comparison output that satisfies all three top-level requirements
(analysis list present, recommendation identity present, summary present)
yet still fails validation because of `badNameEntry`. -/
def badEntryComparison : ComparisonOutput :=
  { proposal_analysis := some [badNameEntry]
    recommendation :=
      some { vendor_id := some "v1", vendor_name := some "Vendor One",
             reasoning := some "best offer", confidence := some 1 }
    summary := some "Vendor One is preferable." }

/-- First of two racing inserts for the pair `(abc12, v1)`. -/
def racePropA : Proposal := { sampleStoredProposal with id := "pA" }

/-- Second of two racing inserts for the pair `(abc12, v1)`. -/
def racePropB : Proposal := { sampleStoredProposal with id := "pB" }

/-- A dispatch-history fallback that finds nothing. -/
def cbRecentNone : String → Option RFP := fun _ => none

/-- A different RFP also dispatched to the sample vendor, more recently. -/
def otherRfp : RFP :=
  { id := "zzz99", status := .sent, vendors := [{ vendor_id := "v1", sent_at := 9 }] }

/-- A dispatch-history fallback that points every vendor at `otherRfp`. -/
def cbRecentOther : String → Option RFP := fun _ => some otherRfp

/-- Vendor lookup over the one-vendor directory. -/
def cbVendorSample : String → Option Vendor := fun a => findVendorByEmail [sampleVendor] a

/-! Helper lemmas. -/

/-- The `success` flag of a correlation result is the conjunction of the
truthiness of its two ids. -/
theorem correlate_success_eq (email : EmailData) (cbR : String → Option RFP)
    (cbV : String → Option Vendor) :
    (correlateEmailToRFP email cbR cbV).success =
      (jsTruthyStr (correlateEmailToRFP email cbR cbV).rfpId &&
       jsTruthyStr (correlateEmailToRFP email cbR cbV).vendorId) := rfl

/-- A positive pair count means the existence check finds a record. -/
theorem findPair_isSome_of_pairCount_pos (db : DB) (rid vid : String)
    (h : 0 < pairCount db rid vid) : (findProposalByPair db rid vid).isSome := by
  rw [pairCount, List.countP_pos_iff] at h
  rw [findProposalByPair, List.find?_isSome]
  obtain ⟨p, hmem, hp⟩ := h
  exact ⟨p, hmem, hp⟩

/-- When a record for the pair already exists, the polling entry point
returns the duplicate outcome and leaves the database untouched. -/
theorem processReceivedEmail_duplicate (db : DB) (email : EmailData)
    (orc : Option ParseOutput) (newId : String) (now : Nat) (rid vid : String)
    (p : Proposal)
    (hs : (correlateInDb db email).success = true)
    (hr : (correlateInDb db email).rfpId = some rid)
    (hv : (correlateInDb db email).vendorId = some vid)
    (hp : findProposalByPair db rid vid = some p) :
    processReceivedEmail db email orc newId now = (db, .duplicateProposal p.id) := by
  have hsplit : jsTruthyStr (correlateInDb db email).rfpId = true ∧
      jsTruthyStr (correlateInDb db email).vendorId = true := by
    have heq := correlate_success_eq email (findRecentRFP db.rfps) (findVendorByEmail db.vendors)
    rw [correlateInDb, heq] at hs
    simpa [Bool.and_eq_true] using hs
  have h1 : jsTruthyStr (some rid) = true := by rw [← hr]; exact hsplit.1
  have h2 : jsTruthyStr (some vid) = true := by rw [← hv]; exact hsplit.2
  unfold processReceivedEmail
  simp [hs, h1, h2, hr, hv, hp]

/-- When a record for the pair already exists, the webhook entry point
raises the duplicate error and leaves the database untouched. -/
theorem receiveProposal_duplicate (db : DB) (email : EmailData)
    (orc : Option ParseOutput) (newId : String) (now : Nat) (rid vid : String)
    (p : Proposal)
    (hfrom : jsTruthyStr email.fromAddr = true)
    (hsub : email.subject.isEmpty = false)
    (hbody : email.body.isEmpty = false)
    (hs : (correlateInDb db email).success = true)
    (hr : (correlateInDb db email).rfpId = some rid)
    (hv : (correlateInDb db email).vendorId = some vid)
    (hp : findProposalByPair db rid vid = some p) :
    receiveProposal db email orc newId now = (db, .duplicateError p.id) := by
  have hsplit : jsTruthyStr (correlateInDb db email).rfpId = true ∧
      jsTruthyStr (correlateInDb db email).vendorId = true := by
    have heq := correlate_success_eq email (findRecentRFP db.rfps) (findVendorByEmail db.vendors)
    rw [correlateInDb, heq] at hs
    simpa [Bool.and_eq_true] using hs
  have h1 : jsTruthyStr (some rid) = true := by rw [← hr]; exact hsplit.1
  have h2 : jsTruthyStr (some vid) = true := by rw [← hv]; exact hsplit.2
  unfold receiveProposal
  simp [hfrom, hsub, hbody, hs, h1, h2, hr, hv, hp]

/-- When no record for the pair exists, the polling entry point runs the
create–parse–update–advance pipeline and reports success. -/
theorem processReceivedEmail_new (db : DB) (email : EmailData)
    (orc : Option ParseOutput) (newId : String) (now : Nat) (rid vid : String)
    (hs : (correlateInDb db email).success = true)
    (hr : (correlateInDb db email).rfpId = some rid)
    (hv : (correlateInDb db email).vendorId = some vid)
    (hnone : findProposalByPair db rid vid = none) :
    processReceivedEmail db email orc newId now =
      (setRfpStatusIfSent
        (updateProposal
          (saveNewProposal db (newProposal newId rid vid email (email.date.getD now)))
          (applyParseResult (newProposal newId rid vid email (email.date.getD now))
            (parseProposal (.strVal email.body) orc) now))
        rid,
       .ok newId rid vid) := by
  have hsplit : jsTruthyStr (correlateInDb db email).rfpId = true ∧
      jsTruthyStr (correlateInDb db email).vendorId = true := by
    have heq := correlate_success_eq email (findRecentRFP db.rfps) (findVendorByEmail db.vendors)
    rw [correlateInDb, heq] at hs
    simpa [Bool.and_eq_true] using hs
  have h1 : jsTruthyStr (some rid) = true := by rw [← hr]; exact hsplit.1
  have h2 : jsTruthyStr (some vid) = true := by rw [← hv]; exact hsplit.2
  unfold processReceivedEmail
  simp [hs, h1, h2, hr, hv, hnone]

/-- When no record for the pair exists and the body-field validation passes,
the webhook entry point runs the pipeline, ending with the unconditional
status update, and responds created. -/
theorem receiveProposal_new (db : DB) (email : EmailData)
    (orc : Option ParseOutput) (newId : String) (now : Nat) (rid vid : String)
    (hfrom : jsTruthyStr email.fromAddr = true)
    (hsub : email.subject.isEmpty = false)
    (hbody : email.body.isEmpty = false)
    (hs : (correlateInDb db email).success = true)
    (hr : (correlateInDb db email).rfpId = some rid)
    (hv : (correlateInDb db email).vendorId = some vid)
    (hnone : findProposalByPair db rid vid = none) :
    receiveProposal db email orc newId now =
      (setRfpStatusUncond
        (updateProposal
          (saveNewProposal db (newProposal newId rid vid email now))
          (applyParseResult (newProposal newId rid vid email now)
            (parseProposal (.emailVal email) orc) now))
        rid,
       .created newId) := by
  have hsplit : jsTruthyStr (correlateInDb db email).rfpId = true ∧
      jsTruthyStr (correlateInDb db email).vendorId = true := by
    have heq := correlate_success_eq email (findRecentRFP db.rfps) (findVendorByEmail db.vendors)
    rw [correlateInDb, heq] at hs
    simpa [Bool.and_eq_true] using hs
  have h1 : jsTruthyStr (some rid) = true := by rw [← hr]; exact hsplit.1
  have h2 : jsTruthyStr (some vid) = true := by rw [← hv]; exact hsplit.2
  unfold receiveProposal
  simp [hfrom, hsub, hbody, hs, h1, h2, hr, hv, hnone]

/-- With the pair index not unique, every save of a new proposal appends. -/
theorem saveNewProposal_eq_append (db : DB) (p : Proposal) :
    saveNewProposal db p = { db with proposals := db.proposals ++ [p] } := by
  simp [saveNewProposal, proposalPairIndexUnique]

/-- `applyParseResult` never changes the record's id. -/
theorem applyParseResult_id (p0 : Proposal) (res : Except String ParsedData) (now : Nat) :
    (applyParseResult p0 res now).id = p0.id := by
  cases res <;> rfl

/-- The failure branch of the parse step only sets the review flag. -/
theorem applyParseResult_error (p0 : Proposal) (m : String) (now : Nat) :
    applyParseResult p0 (.error m) now = { p0 with requires_review := true } := rfl

/-- Replacing by an id that occurs nowhere in the list is the identity. -/
theorem map_replace_fresh (l : List Proposal) (p1 : Proposal)
    (h : ∀ q ∈ l, (q.id == p1.id) = false) :
    l.map (fun q => if q.id == p1.id then p1 else q) = l := by
  have hcongr : ∀ q ∈ l, (if q.id == p1.id then p1 else q) = id q := by
    intro q hq
    simp [h q hq]
  rw [List.map_congr_left hcongr, List.map_id]

/-- The fold selecting the newest RFP returns the accumulator or a list
element. -/
theorem pickNewer_foldl_mem (l : List RFP) :
    ∀ (acc : Option RFP) (r : RFP), l.foldl pickNewer acc = some r →
      acc = some r ∨ r ∈ l := by
  induction l with
  | nil =>
    intro acc r h
    exact .inl h
  | cons x xs ih =>
    intro acc r h
    rcases ih (pickNewer acc x) r h with h1 | h2
    · cases acc with
      | none =>
        right
        simp only [pickNewer, Option.some.injEq] at h1
        exact List.mem_cons.mpr (.inl h1.symm)
      | some b =>
        by_cases hb : rfpDispatchKey b < rfpDispatchKey x
        · right
          simp only [pickNewer, if_pos hb, Option.some.injEq] at h1
          exact List.mem_cons.mpr (.inl h1.symm)
        · left
          simpa only [pickNewer, if_neg hb] using h1
    · exact .inr (List.mem_cons_of_mem _ h2)

/-- The fold's result dominates the accumulator and every list element in
dispatch key. -/
theorem pickNewer_foldl_ge (l : List RFP) :
    ∀ (acc : Option RFP) (r : RFP), l.foldl pickNewer acc = some r →
      (∀ b, acc = some b → rfpDispatchKey b ≤ rfpDispatchKey r) ∧
      (∀ x ∈ l, rfpDispatchKey x ≤ rfpDispatchKey r) := by
  induction l with
  | nil =>
    intro acc r h
    refine ⟨fun b hb => ?_, by simp⟩
    rw [hb] at h
    cases h
    exact Nat.le_refl _
  | cons x xs ih =>
    intro acc r h
    obtain ⟨hacc, hxs⟩ := ih (pickNewer acc x) r h
    have hx : rfpDispatchKey x ≤ rfpDispatchKey r := by
      cases acc with
      | none => exact hacc x rfl
      | some b =>
        by_cases hb : rfpDispatchKey b < rfpDispatchKey x
        · exact hacc x (by simp [pickNewer, if_pos hb])
        · have hbr := hacc b (by simp [pickNewer, if_neg hb])
          exact Nat.le_trans (Nat.le_of_not_lt hb) hbr
    refine ⟨?_, ?_⟩
    · intro b hb
      subst hb
      by_cases hlt : rfpDispatchKey b < rfpDispatchKey x
      · exact Nat.le_trans (Nat.le_of_lt hlt) hx
      · exact hacc b (by simp [pickNewer, if_neg hlt])
    · intro y hy
      rcases List.mem_cons.mp hy with h1 | h2
      · rw [h1]; exact hx
      · exact hxs y h2

/-- Whatever `findRecentRFP` returns is dispatched to the vendor, in an
allowed status, and has the greatest dispatch key among eligible RFPs. -/
theorem findRecentRFP_spec (rfps : List RFP) (vid : String) (r : RFP)
    (h : findRecentRFP rfps vid = some r) :
    (r.status = .sent ∨ r.status = .receiving_proposals) ∧
    r.vendors.any (fun d => d.vendor_id == vid) = true ∧
    ∀ x ∈ rfps, rfpEligible vid x = true → rfpDispatchKey x ≤ rfpDispatchKey r := by
  rcases pickNewer_foldl_mem _ _ _ h with h1 | h2
  · cases h1
  · obtain ⟨hmem, helig⟩ := List.mem_filter.mp h2
    have helig' := helig
    rw [rfpEligible, Bool.and_eq_true] at helig'
    obtain ⟨hany, hstat⟩ := helig'
    refine ⟨?_, hany, ?_⟩
    · rcases Bool.or_eq_true _ _ |>.mp hstat with h3 | h3
      · exact .inl (by simpa using h3)
      · exact .inr (by simpa using h3)
    · intro x hxmem hxel
      exact (pickNewer_foldl_ge _ _ _ h).2 x (List.mem_filter.mpr ⟨hxmem, hxel⟩)

/-- A string that contains "timeout" is in particular non-empty. -/
theorem strIncludes_timeout_nonempty (m : String)
    (h : strIncludes m "timeout" = true) : m.isEmpty = false := by
  by_cases hm : m.isEmpty = true
  · rw [String.isEmpty_iff] at hm
    subst hm
    exact absurd h (by decide)
  · exact Bool.eq_false_iff.mpr hm

/-- The 5xx test holds exactly for a present status in [500, 600). -/
theorem statusIs5xx_eq (st : Option Nat) :
    statusIs5xx st = true ↔ ∃ s, st = some s ∧ 500 ≤ s ∧ s < 600 := by
  cases st <;> simp [statusIs5xx, Bool.and_eq_true, decide_eq_true_eq]

/-- The timeout-message test holds exactly for a present message containing
"timeout". -/
theorem msgIncludesTimeout_eq (ms : Option String) :
    msgIncludesTimeout ms = true ↔
      ∃ m, ms = some m ∧ strIncludes m "timeout" = true := by
  cases ms with
  | none => simp [msgIncludesTimeout]
  | some m =>
    simp only [msgIncludesTimeout, Bool.and_eq_true, Bool.not_eq_true',
      Option.some.injEq, exists_eq_left']
    constructor
    · intro h
      exact h.2
    · intro h
      exact ⟨strIncludes_timeout_nonempty m h, h⟩

/-- Every delay list produced by the retry loop is a prefix of the remaining
backoff schedule. -/
theorem retryGo_delays_prefix {α : Type} (fn : Nat → Except JsError α) :
    ∀ (r idx : Nat), (retryGo fn r idx).1 <+: delaySeq r := by
  intro r
  induction r with
  | zero =>
    intro idx
    cases h : fn idx <;> simp [retryGo, h, delaySeq]
  | succ n ih =>
    intro idx
    cases h : fn idx with
    | ok a => simp [retryGo, h]
    | error e =>
      by_cases hre : isRetryableError e = true
      · simp only [retryGo, h, hre, if_true, delaySeq]
        exact (List.cons_prefix_cons).mpr ⟨rfl, ih (idx + 1)⟩
      · simp [retryGo, h, hre]

/-- If the first `k` attempts fail retryably and attempt `k` succeeds, the
retry loop returns the success after exactly the first `k` scheduled
delays. -/
theorem retryGo_ok {α : Type} (fn : Nat → Except JsError α) :
    ∀ (k r idx : Nat) (a : α), k ≤ r →
      (∀ i, i < k → ∃ e, fn (idx + i) = .error e ∧ isRetryableError e = true) →
      fn (idx + k) = .ok a →
      retryGo fn r idx = ((delaySeq r).take k, .ok a) := by
  intro k
  induction k with
  | zero =>
    intro r idx a _ _ hok
    rw [Nat.add_zero] at hok
    cases r <;> simp [retryGo, hok]
  | succ k ih =>
    intro r idx a hkr hfail hok
    cases r with
    | zero => exact absurd hkr (by omega)
    | succ n =>
      obtain ⟨e, he, hre⟩ := hfail 0 (Nat.succ_pos k)
      rw [Nat.add_zero] at he
      have hrec := ih n (idx + 1) a (Nat.le_of_succ_le_succ hkr)
        (fun i hi => by
          obtain ⟨e1, he1, hre1⟩ := hfail (i + 1) (Nat.succ_lt_succ hi)
          refine ⟨e1, ?_, hre1⟩
          rw [Nat.add_assoc, Nat.add_comm 1 i]
          exact he1)
        (by rw [Nat.add_assoc, Nat.add_comm 1 k]; exact hok)
      simp only [retryGo, he, hre, if_true, hrec, delaySeq, List.take_succ_cons]

/-- A successful parse validation derives the review flag from the threshold
comparison and passes the oracle's confidence through unchanged. -/
theorem validateParseOutput_ok (o : ParseOutput) (d : ParsedData)
    (h : validateParseOutput o = .ok d) :
    d.requires_review = decide (d.confidence < confidenceThreshold) ∧
    o.confidence = some d.confidence := by
  unfold validateParseOutput at h
  split at h
  · cases h
  · split at h
    · cases h
    · split at h
      · cases h
      · split at h
        · cases h
        · rename_i conf hconf
          split at h
          · cases h
          · split at h
            · injection h with h1
              subst h1
              exact ⟨rfl, hconf⟩
            · cases h

/-- Comparison validation fails exactly when the analysis list is missing,
the recommendation or its vendor identity is missing, the summary is
missing, or some analysis entry lacks its identity, name, or scores. -/
theorem validateComparison_error_iff (o : ComparisonOutput) :
    (∃ m, validateComparison o = .error m) ↔
      (o.proposal_analysis = none
        ∨ o.recommendation = none
        ∨ (∃ rcm, o.recommendation = some rcm ∧ jsTruthyStr rcm.vendor_id = false)
        ∨ jsTruthyStr o.summary = false
        ∨ (∃ es, o.proposal_analysis = some es ∧ ∃ a ∈ es, entryValid a = false)) := by
  obtain ⟨pa, rc, sm⟩ := o
  cases pa with
  | none => simp [validateComparison]
  | some es =>
    cases rc with
    | none => simp [validateComparison]
    | some rcm =>
      by_cases hid : jsTruthyStr rcm.vendor_id = true
      · by_cases hsum : jsTruthyStr sm = true
        · by_cases hall : es.all entryValid = true
          · have hval : ∀ a ∈ es, entryValid a = true := List.all_eq_true.mp hall
            simp [validateComparison, hid, hsum, hall]
            intro a ha
            exact hval a ha
          · have hv := List.all_eq_false.mp (Bool.eq_false_iff.mpr hall)
            obtain ⟨a, ha, hav⟩ := hv
            simp [validateComparison, hid, hsum, hall]
            exact ⟨a, ha, by simpa using hav⟩
        · have hsum' : jsTruthyStr sm = false := Bool.eq_false_iff.mpr hsum
          simp [validateComparison, hid, hsum']
      · have hid' : jsTruthyStr rcm.vendor_id = false := Bool.eq_false_iff.mpr hid
        simp [validateComparison, hid']

/-- After a failed parse, the create–update pipeline stores exactly the
created record with the review flag forced, appended to the table (given the
new id is fresh). -/
theorem pipeline_proposals_error (db : DB) (p0 : Proposal) (m : String) (now : Nat)
    (hfresh : ∀ q ∈ db.proposals, (q.id == p0.id) = false) :
    (updateProposal (saveNewProposal db p0) (applyParseResult p0 (.error m) now)).proposals
      = db.proposals ++ [{ p0 with requires_review := true }] := by
  rw [applyParseResult_error, saveNewProposal_eq_append]
  show (db.proposals ++ [p0]).map
      (fun q => if q.id == ({ p0 with requires_review := true } : Proposal).id
        then { p0 with requires_review := true } else q) = _
  rw [List.map_append]
  congr 1
  · exact map_replace_fresh _ _ (fun q hq => hfresh q hq)
  · simp

/-! Claim theorems. -/

/-- Claim C1: when correlation resolves an inbound email to a pair that
already has exactly one Response Record, processing it again (through the
polling path, or the webhook path once its field validation passes) leaves
the proposal table unchanged, reports the explicit duplicate outcome, and
exactly one record for the pair remains. -/
theorem c1_duplicate_submission_idempotent (db : DB) (email : EmailData)
    (orc : Option ParseOutput) (newId : String) (now : Nat) (rid vid : String)
    (hs : (correlateInDb db email).success = true)
    (hr : (correlateInDb db email).rfpId = some rid)
    (hv : (correlateInDb db email).vendorId = some vid)
    (hcount : pairCount db rid vid = 1) :
    ((processReceivedEmail db email orc newId now).1.proposals = db.proposals
      ∧ (∃ pid, (processReceivedEmail db email orc newId now).2 = .duplicateProposal pid)
      ∧ pairCount (processReceivedEmail db email orc newId now).1 rid vid = 1)
    ∧ (jsTruthyStr email.fromAddr = true → email.subject.isEmpty = false →
        email.body.isEmpty = false →
        (receiveProposal db email orc newId now).1.proposals = db.proposals
        ∧ (∃ pid, (receiveProposal db email orc newId now).2 = .duplicateError pid)
        ∧ pairCount (receiveProposal db email orc newId now).1 rid vid = 1) := by
  obtain ⟨p, hp⟩ : ∃ p, findProposalByPair db rid vid = some p :=
    Option.isSome_iff_exists.mp
      (findPair_isSome_of_pairCount_pos db rid vid (by omega))
  constructor
  · rw [processReceivedEmail_duplicate db email orc newId now rid vid p hs hr hv hp]
    exact ⟨rfl, ⟨p.id, rfl⟩, hcount⟩
  · intro hfrom hsub hbody
    rw [receiveProposal_duplicate db email orc newId now rid vid p hfrom hsub hbody hs hr hv hp]
    exact ⟨rfl, ⟨p.id, rfl⟩, hcount⟩

/-- Witness for C1: a concrete database holding one record for the sample
pair, together with the sample email that correlates to it. -/
theorem c1_duplicate_submission_idempotent_witness :
    (processReceivedEmail sampleDbWithProposal sampleEmail none "p9" 10).1.proposals
        = sampleDbWithProposal.proposals
    ∧ (receiveProposal sampleDbWithProposal sampleEmail none "p9" 10).1.proposals
        = sampleDbWithProposal.proposals :=
  ⟨(c1_duplicate_submission_idempotent sampleDbWithProposal sampleEmail none "p9" 10
      "abc12" "v1" (by decide) (by decide) (by decide) (by decide)).1.1,
   ((c1_duplicate_submission_idempotent sampleDbWithProposal sampleEmail none "p9" 10
      "abc12" "v1" (by decide) (by decide) (by decide) (by decide)).2
      (by decide) (by decide) (by decide)).1⟩

/-- Claim C2: refuted on the webhook path. The controller's status update is
unconditional (its own comment says "if it's still 'sent'"), so processing
an inbound email for a closed RFP moves it back to `receiving_proposals`;
the polling path's guarded update leaves the closed RFP untouched. -/
theorem c2_closed_rfp_moved_backward :
    closedRfp.status = .closed
    ∧ ((receiveProposal closedDb sampleEmail none "p1" 10).1.rfps.find?
        (fun r => r.id == "abc12")).map RFP.status = some .receiving_proposals
    ∧ (receiveProposal closedDb sampleEmail none "p1" 10).2 = .created "p1"
    ∧ ((processReceivedEmail closedDb sampleEmail none "p1" 10).1.rfps.find?
        (fun r => r.id == "abc12")).map RFP.status = some .closed := by
  decide

/-- Claim C3: for every oracle output that passes parse-schema validation,
the derived review flag is exactly the comparison of the reported confidence
against the 0.7 threshold, the confidence is passed through unchanged, the
record-update step derives the same flag, and at the boundary a confidence
of exactly 0.7 yields `requires_review = false`. -/
theorem c3_requires_review_iff_confidence_below_threshold :
    confidenceThreshold = 7/10
    ∧ (∀ (o : ParseOutput) (d : ParsedData), validateParseOutput o = .ok d →
        d.requires_review = decide (d.confidence < confidenceThreshold)
          ∧ o.confidence = some d.confidence)
    ∧ (∀ (p0 : Proposal) (d : ParsedData) (now : Nat),
        (applyParseResult p0 (.ok d) now).requires_review
          = decide (d.confidence < confidenceThreshold))
    ∧ (validateParseOutput boundaryParseOutput = .ok boundaryParsedData
        ∧ boundaryParsedData.confidence = confidenceThreshold
        ∧ boundaryParsedData.requires_review = false) := by
  refine ⟨?_, validateParseOutput_ok, fun p0 d now => rfl, rfl, rfl, rfl⟩
  norm_num [confidenceThreshold, Rat.mk'_eq_divInt, Rat.divInt_eq_div]

/-- Witness for C3 at the boundary output with confidence exactly 0.7. -/
theorem c3_requires_review_witness :
    boundaryParsedData.requires_review
      = decide (boundaryParsedData.confidence < confidenceThreshold)
    ∧ boundaryParseOutput.confidence = some boundaryParsedData.confidence :=
  c3_requires_review_iff_confidence_below_threshold.2.1 boundaryParseOutput
    boundaryParsedData rfl

/-- Claim C4: a subject tag fixes the request id and makes the correlation
result independent of the dispatch-history fallback; the fallback also never
matters when no responder was resolved; and the fallback lookup itself only
returns RFPs in status `sent`/`receiving_proposals` whose dispatch list
contains the responder, maximal in dispatch timestamp. -/
theorem c4_tag_precedence_and_fallback_restriction :
    (∀ (email : EmailData) (cbR cbR' : String → Option RFP)
        (cbV : String → Option Vendor) (t : String),
        extractRfpTag email.subject = some t →
        (correlateEmailToRFP email cbR cbV).rfpId = some t
        ∧ correlateEmailToRFP email cbR cbV = correlateEmailToRFP email cbR' cbV)
    ∧ (∀ (email : EmailData) (cbR cbR' : String → Option RFP)
        (cbV : String → Option Vendor),
        (∀ a, email.fromAddr = some a → cbV a = none) →
        correlateEmailToRFP email cbR cbV = correlateEmailToRFP email cbR' cbV)
    ∧ (∀ (rfps : List RFP) (vid : String) (r : RFP),
        findRecentRFP rfps vid = some r →
        (r.status = .sent ∨ r.status = .receiving_proposals)
        ∧ r.vendors.any (fun d => d.vendor_id == vid) = true
        ∧ ∀ x ∈ rfps, rfpEligible vid x = true → rfpDispatchKey x ≤ rfpDispatchKey r) := by
  refine ⟨?_, ?_, fun rfps vid r h => findRecentRFP_spec rfps vid r h⟩
  · intro email cbR cbR' cbV t ht
    constructor
    · simp [correlateEmailToRFP, ht]
    · simp [correlateEmailToRFP, ht]
  · intro email cbR cbR' cbV hnone
    cases hf : email.fromAddr with
    | none => simp [correlateEmailToRFP, hf]
    | some a =>
      have hva := hnone a hf
      cases htag : extractRfpTag email.subject <;>
        simp [correlateEmailToRFP, hf, htag, hva]

/-- Witness for C4: the sample email's tag names `abc12`, and swapping the
dispatch-history fallback (which points the sample vendor at a different,
more recently dispatched RFP) does not change the correlation result. -/
theorem c4_tag_precedence_witness :
    (correlateEmailToRFP sampleEmail cbRecentNone cbVendorSample).rfpId = some "abc12"
    ∧ correlateEmailToRFP sampleEmail cbRecentNone cbVendorSample
        = correlateEmailToRFP sampleEmail cbRecentOther cbVendorSample :=
  c4_tag_precedence_and_fallback_restriction.1 sampleEmail cbRecentNone cbRecentOther
    cbVendorSample "abc12" (by decide)

/-- Claim C5: the retry predicate is exactly {429, 5xx, ECONNRESET/ETIMEDOUT,
message containing "timeout"}; at most 3 retries happen and the waited
delays are always the first entries of [1000, 2000, 4000]; a non-retryable
first failure is raised immediately with no delays; and k ≤ 3 retryable
failures followed by a success return that success after exactly the first k
delays. -/
theorem c5_retry_backoff_policy :
    (∀ e : JsError, isRetryableError e = true ↔
        (e.status = some 429
          ∨ (∃ s, e.status = some s ∧ 500 ≤ s ∧ s < 600)
          ∨ e.code = some "ECONNRESET" ∨ e.code = some "ETIMEDOUT"
          ∨ (∃ m, e.msg = some m ∧ strIncludes m "timeout" = true)))
    ∧ (∀ (α : Type) (fn : Nat → Except JsError α),
        (retryWithBackoff fn).1.length ≤ 3
        ∧ (retryWithBackoff fn).1
            = List.take (retryWithBackoff fn).1.length [1000, 2000, 4000])
    ∧ (∀ (α : Type) (fn : Nat → Except JsError α) (e : JsError),
        fn 0 = .error e → isRetryableError e = false →
        retryWithBackoff fn = ([], .error (handleError e)))
    ∧ (∀ (α : Type) (fn : Nat → Except JsError α) (k : Nat) (a : α), k ≤ 3 →
        (∀ i, i < k → ∃ e, fn i = .error e ∧ isRetryableError e = true) →
        fn k = .ok a →
        retryWithBackoff fn = (List.take k [1000, 2000, 4000], .ok a)) := by
  refine ⟨?_, ?_, ?_, ?_⟩
  · intro e
    simp only [isRetryableError, Bool.or_eq_true, beq_iff_eq, statusIs5xx_eq,
      msgIncludesTimeout_eq, or_assoc]
  · intro α fn
    have hp := retryGo_delays_prefix fn 3 0
    have h3 : delaySeq 3 = [1000, 2000, 4000] := rfl
    rw [h3] at hp
    exact ⟨by simpa using hp.length_le, List.prefix_iff_eq_take.mp hp⟩
  · intro α fn e h0 hnr
    rw [retryWithBackoff]
    simp [retryGo, h0, hnr]
  · intro α fn k a hk hfail hok
    have h := retryGo_ok fn k 3 0 a hk
      (fun i hi => by simpa using hfail i hi) (by simpa using hok)
    rw [retryWithBackoff, h]
    rfl

/-- Witness for C5: a permanent HTTP 401 is raised immediately with zero
delays, and two 429 failures followed by a success return the success after
exactly the 1000ms and 2000ms delays. -/
theorem c5_retry_backoff_witness :
    retryWithBackoff fn401 = ([], .error (handleError err401))
    ∧ retryWithBackoff fn429Twice = ([1000, 2000], .ok 7) :=
  ⟨c5_retry_backoff_policy.2.2.1 Nat fn401 err401 rfl (by decide),
   c5_retry_backoff_policy.2.2.2 Nat fn429Twice 2 7 (by decide)
     (fun i hi => ⟨err429, by simp [fn429Twice, hi], by decide⟩) rfl⟩

/-- Claim C6 counterexample: the generic branch of `handleError` embeds the
raw upstream message, so the adapter's output both contains the raw text and
depends on it. -/
theorem c6_generic_message_leak_counterexample :
    handleError errBoom = "AI service error: boom"
    ∧ strIncludes (handleError errBoom) "boom" = true
    ∧ handleError errBoom ≠ handleError errZap := by
  decide

/-- Claim C6 as amended: every mapped failure is one of the five categories;
the first four carry fixed messages, while the generic category's message is
"AI service error: " followed by the upstream error's own message (or a
fixed placeholder when that is absent or empty). -/
theorem c6_error_mapping_amended :
    ∀ e : JsError,
      handleError e = "Invalid OpenAI API key"
      ∨ handleError e = "OpenAI API rate limit exceeded. Please try again later."
      ∨ handleError e = "OpenAI service is temporarily unavailable. Please try again later."
      ∨ handleError e = "Request to OpenAI timed out. Please try again."
      ∨ handleError e = "AI service error: " ++ jsMsgOrUnknown e.msg := by
  intro e
  unfold handleError
  split
  · exact .inl rfl
  · split
    · exact .inr (.inl rfl)
    · split
      · exact .inr (.inr (.inl rfl))
      · split
        · exact .inr (.inr (.inr (.inl rfl)))
        · exact .inr (.inr (.inr (.inr rfl)))

/-- Claim C7: when a record is created and its parse attempt fails, the
stored record stays in `received` with the review flag forced and the raw
email content exactly as captured at creation, and each entry point still
returns its structured result (the polling path's parse attempt always
fails, so its conjunct is unconditional). -/
theorem c7_parse_failure_kept_received (db : DB) (email : EmailData)
    (orc : Option ParseOutput) (newId : String) (now : Nat) (rid vid : String)
    (hs : (correlateInDb db email).success = true)
    (hr : (correlateInDb db email).rfpId = some rid)
    (hv : (correlateInDb db email).vendorId = some vid)
    (hnone : findProposalByPair db rid vid = none)
    (hfresh : ∀ q ∈ db.proposals, (q.id == newId) = false) :
    ((processReceivedEmail db email orc newId now).2 = .ok newId rid vid
      ∧ ∃ p1, (processReceivedEmail db email orc newId now).1.proposals
            = db.proposals ++ [p1]
          ∧ p1.status = .received ∧ p1.requires_review = true
          ∧ p1.raw_email_content = rawContentOf email ∧ p1.parsed_data = none)
    ∧ (∀ m, parseProposal (.emailVal email) orc = .error m →
        jsTruthyStr email.fromAddr = true → email.subject.isEmpty = false →
        email.body.isEmpty = false →
        (receiveProposal db email orc newId now).2 = .created newId
        ∧ ∃ p1, (receiveProposal db email orc newId now).1.proposals
              = db.proposals ++ [p1]
            ∧ p1.status = .received ∧ p1.requires_review = true
            ∧ p1.raw_email_content = rawContentOf email ∧ p1.parsed_data = none) := by
  constructor
  · rw [processReceivedEmail_new db email orc newId now rid vid hs hr hv hnone]
    refine ⟨rfl, { newProposal newId rid vid email (email.date.getD now) with
        requires_review := true }, ?_, rfl, rfl, rfl, rfl⟩
    show (updateProposal (saveNewProposal db _) _).proposals = _
    have herr : parseProposal (.strVal email.body) orc
        = .error "Email body is required for proposal parsing" := rfl
    rw [herr]
    exact pipeline_proposals_error db _ _ now hfresh
  · intro m hm hfrom hsub hbody
    rw [receiveProposal_new db email orc newId now rid vid hfrom hsub hbody hs hr hv hnone]
    refine ⟨rfl, { newProposal newId rid vid email now with requires_review := true },
      ?_, rfl, rfl, rfl, rfl⟩
    show (updateProposal (saveNewProposal db _) _).proposals = _
    rw [hm]
    exact pipeline_proposals_error db _ _ now hfresh

/-- Witness for C7: processing the sample email against the fresh sample
database (the failing parse input is the polling path's, which always
fails; the webhook conjunct is exercised with an absent oracle reply). -/
theorem c7_parse_failure_witness :
    (processReceivedEmail sampleDb sampleEmail none "p1" 10).2 = .ok "p1" "abc12" "v1"
    ∧ (receiveProposal sampleDb sampleEmail none "p1" 10).2 = .created "p1" :=
  ⟨(c7_parse_failure_kept_received sampleDb sampleEmail none "p1" 10 "abc12" "v1"
      (by decide) (by decide) (by decide) (by decide) (by decide)).1.1,
   ((c7_parse_failure_kept_received sampleDb sampleEmail none "p1" 10 "abc12" "v1"
      (by decide) (by decide) (by decide) (by decide) (by decide)).2
      "AI request failed" rfl (by decide) (by decide) (by decide)).1⟩

/-- Claim C8 counterexample: an oracle output with the analysis list, the
recommendation identity and the summary all present is still rejected as a
hard failure, because one analysis entry lacks its `vendor_name`. -/
theorem c8_entry_hard_failure_counterexample :
    badEntryComparison.proposal_analysis = some [badNameEntry]
    ∧ (∃ rcm, badEntryComparison.recommendation = some rcm
        ∧ jsTruthyStr rcm.vendor_id = true)
    ∧ jsTruthyStr badEntryComparison.summary = true
    ∧ validateComparison badEntryComparison
        = .error "A proposal analysis entry is missing required fields" := by
  refine ⟨rfl, ⟨_, rfl, rfl⟩, rfl, rfl⟩

/-- Claim C8 as amended: comparison validation hard-fails exactly for a
missing analysis list, a missing recommendation or recommendation identity,
a missing (or empty) summary, or an analysis entry lacking identity, name or
scores; the three per-entry lists are always repaired to `[]` and never
cause rejection; with zero records the endpoint returns the explicit
no-responses marker; and on a validation failure the endpoint returns all
raw records with no analysis. -/
theorem c8_comparison_validation_amended :
    (∀ o : ComparisonOutput,
        (∃ m, validateComparison o = .error m) ↔
          (o.proposal_analysis = none
            ∨ o.recommendation = none
            ∨ (∃ rcm, o.recommendation = some rcm ∧ jsTruthyStr rcm.vendor_id = false)
            ∨ jsTruthyStr o.summary = false
            ∨ (∃ es, o.proposal_analysis = some es ∧ ∃ a ∈ es, entryValid a = false)))
    ∧ (∀ a : AnalysisEntry,
        (repairEntry a).strengths = a.strengths.getD []
        ∧ (repairEntry a).weaknesses = a.weaknesses.getD []
        ∧ (repairEntry a).red_flags = a.red_flags.getD [])
    ∧ (∀ (o : ComparisonOutput) (es : List AnalysisEntry) (d : ComparisonData),
        o.proposal_analysis = some es → validateComparison o = .ok d →
        d.proposal_analysis = es.map repairEntry)
    ∧ (∀ (db : DB) (rid : String) (r0 : RFP) (orcReply : Option ComparisonOutput),
        db.rfps.find? (fun r => r.id == rid) = some r0 →
        (db.proposals.filter (fun p => p.rfp_id == rid)).isEmpty = true →
        getComparison db rid orcReply
          = .noProposals "No proposals have been received yet for this RFP.")
    ∧ (∀ (db : DB) (rid : String) (r0 : RFP) (o : ComparisonOutput) (m : String),
        db.rfps.find? (fun r => r.id == rid) = some r0 →
        (db.proposals.filter (fun p => p.rfp_id == rid)).isEmpty = false →
        validateComparison o = .error m →
        getComparison db rid (some o)
          = .fallback (db.proposals.filter (fun p => p.rfp_id == rid))
              "AI comparison is temporarily unavailable. Please review proposals manually.") := by
  refine ⟨validateComparison_error_iff, fun a => ⟨rfl, rfl, rfl⟩, ?_, ?_, ?_⟩
  · intro o es d hpa h
    unfold validateComparison at h
    split at h
    · cases h
    · rename_i es2 hpa2
      split at h
      · cases h
      · rename_i rcm hrc2
        split at h
        · cases h
        · split at h
          · cases h
          · split at h
            · injection h with h1
              rw [hpa2] at hpa
              injection hpa with h2
              subst h2
              subst h1
              rfl
            · cases h
  · intro db rid r0 orcReply hf he
    simp [getComparison, hf, he]
  · intro db rid r0 o m hf hne hv
    simp [getComparison, hf, hne, hv]

/-- Witness for C8: the repair of a bad-entry-free output, the no-responses
marker on an empty table, and the fallback on the counterexample output. -/
theorem c8_comparison_validation_witness :
    getComparison sampleDb "abc12" (some badEntryComparison)
      = .noProposals "No proposals have been received yet for this RFP."
    ∧ getComparison sampleDbWithProposal "abc12" (some badEntryComparison)
      = .fallback [sampleStoredProposal]
          "AI comparison is temporarily unavailable. Please review proposals manually." :=
  ⟨c8_comparison_validation_amended.2.2.2.1 sampleDb "abc12" sampleRfp
     (some badEntryComparison) (by decide) (by decide),
   c8_comparison_validation_amended.2.2.2.2 sampleDbWithProposal "abc12" sampleRfp
     badEntryComparison "A proposal analysis entry is missing required fields"
     (by decide) (by decide) rfl⟩

/-- Claim C9: refuted on the code as written. The create-if-absent step is a
separate `findOne` existence check followed by an unconditional `save`, and
the `(rfp_id, vendor_id)` index is not unique, so the interleaving
check-A, check-B, insert-A, insert-B of two deliveries of the same message
leaves two records for the pair. -/
theorem c9_check_then_insert_not_atomic :
    proposalPairIndexUnique = false
    ∧ pairCount sampleDb "abc12" "v1" = 0
    ∧ pairCount (checkThenInsertInterleaved sampleDb racePropA racePropB) "abc12" "v1" = 2 := by
  decide

/-- Claim C10: the polling service hands `parseProposal` the body string
instead of the email-data object, so the parser's precondition always
throws; consequently every record the polling path creates stays in
`received` with the review flag forced, never reaching `parsed`. -/
theorem c10_polling_parse_always_fails :
    (∀ (b : String) (orc : Option ParseOutput),
        parseProposal (.strVal b) orc
          = .error "Email body is required for proposal parsing")
    ∧ (∀ (db : DB) (email : EmailData) (orc : Option ParseOutput)
        (newId : String) (now : Nat) (rid vid : String),
        (correlateInDb db email).success = true →
        (correlateInDb db email).rfpId = some rid →
        (correlateInDb db email).vendorId = some vid →
        findProposalByPair db rid vid = none →
        (processReceivedEmail db email orc newId now).2 = .ok newId rid vid
        ∧ ∀ p ∈ (processReceivedEmail db email orc newId now).1.proposals,
            p.id = newId → p.status = .received ∧ p.requires_review = true
              ∧ p.parsed_data = none) := by
  refine ⟨fun b orc => rfl, ?_⟩
  intro db email orc newId now rid vid hs hr hv hnone
  rw [processReceivedEmail_new db email orc newId now rid vid hs hr hv hnone]
  refine ⟨rfl, ?_⟩
  intro p hmem hpid
  have hmem2 : p ∈ (db.proposals ++
      [newProposal newId rid vid email (email.date.getD now)]).map
      (fun q => if q.id == newId
        then { newProposal newId rid vid email (email.date.getD now) with
               requires_review := true }
        else q) := hmem
  obtain ⟨q, hq, hpq⟩ := List.mem_map.mp hmem2
  by_cases hqid : (q.id == newId) = true
  · rw [if_pos hqid] at hpq
    rw [← hpq]
    exact ⟨rfl, rfl, rfl⟩
  · rw [if_neg hqid] at hpq
    rw [← hpq] at hpid
    exact absurd (beq_iff_eq.mpr hpid) hqid

/-- Witness for C10: the sample email processed through the polling path is
accepted, and the created record stays `received` with review forced. -/
theorem c10_polling_parse_witness :
    (processReceivedEmail sampleDb sampleEmail none "p1" 10).2
      = .ok "p1" "abc12" "v1" :=
  (c10_polling_parse_always_fails.2 sampleDb sampleEmail none "p1" 10 "abc12" "v1"
    (by decide) (by decide) (by decide) (by decide)).1

end ProcureAI
